import Mathlib

/-! Shallow embedding of the wcli command-dispatch core (src/main.rs and
src/cmd.rs of Taghunter98/wcli).

Conventions used throughout:

* `Output` mirrors the fields of std::process::Output that the program
  reads: status.success(), stdout and stderr (decoded with from_utf8_lossy).
* Interactive input is modelled as a list of lines, each line exactly as
  Rust read_line returns it (normally including the trailing newline).
  Reading at end of input yields the empty string, matching read_line at
  end of file; the Rust loops would then spin forever on empty input, and
  the model simply stops there, which no theorem below depends on.
* Remote execution is modelled by a transport oracle tr : String → Output
  giving the Output of running the constructed command string through
  bash -c with the ssh wrapper (run_cmd, src/cmd.rs:98). The progress
  spinner, colours and wall-clock reads are cosmetic collaborators; elapsed
  times are supplied as an oracle argument where the code reports them.
* Each println is one Effect.print with the formatted text; each prompt
  written by input or msg_input is one Effect.prompt.
* Every mode loop is a function from the list of input lines to the trace
  of effects it performs together with the input lines still unread when
  the loop returns control.
* The recursive mode re-entry performed by the change keyword in git and
  sql mode is embedded by passing the call stack of session values
  explicitly (head = innermost session); pushing models the nested call of
  run_git / run_sql, popping models returning from it at exit.
* str_trim models str::trim; the two agree on ASCII input. It is defined
  on the character list so that it evaluates by kernel reduction.
-/

namespace WCLI

/-- The part of std::process::Output the program reads. -/
structure Output where
  success : Bool
  stdout : String
  stderr : String
deriving Repr, DecidableEq

/-- One observable action of the program. -/
inductive Effect where
  | print (s : String)
  | prompt (msg : String)
  | exec (c : String) (out : Output)
  | clearScreen
  | fatal (msg : String)
deriving Repr, DecidableEq

/-- str::trim on the character list: drop whitespace from both ends.
Rust trims per char::is_whitespace; on ASCII text this is the same
predicate as Char.isWhitespace. -/
def str_trim (s : String) : String :=
  String.mk (((s.data.dropWhile Char.isWhitespace).reverse.dropWhile Char.isWhitespace).reverse)

/-- helpers::print_cmd (src/cmd.rs:526): print stdout on success, stderr otherwise. -/
def print_cmd (output : Output) : Effect :=
  if output.success then .print output.stdout else .print output.stderr

/-- First space-delimited token of a line:
bash_cmd.splitn(2, ' ').next().unwrap_or("") at src/cmd.rs:39. -/
def first_token (s : String) : String :=
  String.mk (s.data.takeWhile (fun c => c != ' '))

/-- The string built by run_cmd_sudo (src/cmd.rs:120). -/
def run_cmd_sudo (password sudo_cmd : String) : String :=
  "echo " ++ password ++ " | " ++ sudo_cmd

/-- The string built by install (src/cmd.rs:135). -/
def install_cmd (password package : String) : String :=
  "echo " ++ password ++ " | sudo yum install -y " ++ package

/-- The string built by remove (src/cmd.rs:149). -/
def remove_cmd (password package : String) : String :=
  "echo " ++ password ++ " | sudo yum remove -y " ++ package

/-- The string built by git_cmd (src/cmd.rs:291). -/
def git_cmd (directory user_cmd : String) : String :=
  "cd " ++ directory ++ " && " ++ user_cmd

/-- The string built by sql_query (src/cmd.rs:381). -/
def sql_cmd (password database query : String) : String :=
  "echo " ++ password ++ " | sudo -S mariadb -u root -p -e \"USE " ++ database ++ "; " ++ query ++ "\""

/-- The string built by test_sql_connection (src/cmd.rs:402). -/
def sql_test_cmd (password : String) : String :=
  "echo " ++ password ++ " | sudo -S mariadb -u root -p"

/-- The string built by run_unittests (src/cmd.rs:470). -/
def unittest_cmd (directory venv tests : String) : String :=
  "cd " ++ str_trim directory ++ " && source " ++ str_trim venv ++
    "/bin/activate && python3 -m unittest discover " ++ str_trim tests

/-- The ssh wrapper string built by connect::ssh (src/cmd.rs:194). -/
def ssh_string (pem ec2 bash_cmd : String) : String :=
  "ssh -i " ++ pem ++ " " ++ ec2 ++ " '" ++ bash_cmd ++ "'"

/-- Reading one line of modelled input; read_line yields "" at end of input. -/
def read_ln : List String → String × List String
  | [] => ("", [])
  | l :: r => (l, r)

/-- Shell-mode classification result, one constructor per arm of the match
in cmd (src/cmd.rs:42). -/
inductive ShellTok where
  | sudo
  | install
  | remove
  | clear
  | help
  | exit
  | plain
deriving Repr, DecidableEq

/-- The match on first.trim() in cmd (src/cmd.rs:42). -/
def classify_shell (line : String) : ShellTok :=
  match str_trim (first_token line) with
  | "sudo" => .sudo
  | "install" => .install
  | "remove" => .remove
  | "clear" => .clear
  | "help" => .help
  | "exit" => .exit
  | _ => .plain

/-- Git-mode classification, one constructor per arm of the match in
run_git (src/cmd.rs:261). -/
inductive GitTok where
  | exit
  | change
  | clear
  | help
  | plain
deriving Repr, DecidableEq

/-- The match on user_cmd.trim() in run_git (src/cmd.rs:261). -/
def classify_git (line : String) : GitTok :=
  match str_trim line with
  | "exit" => .exit
  | "change" => .change
  | "clear" => .clear
  | "help" => .help
  | _ => .plain

/-- Sql-mode classification, one constructor per arm of the match in
run_sql (src/cmd.rs:361). -/
inductive SqlTok where
  | exit
  | database
  | change
  | clear
  | help
  | plain
deriving Repr, DecidableEq

/-- The match on query.trim() in run_sql (src/cmd.rs:361). -/
def classify_sql (line : String) : SqlTok :=
  match str_trim line with
  | "exit" => .exit
  | "database" => .database
  | "change" => .change
  | "clear" => .clear
  | "help" => .help
  | _ => .plain

/-- Top-level classification, one constructor per arm of the match in
main_loop (src/main.rs:172). -/
inductive TopTok where
  | cmd
  | git
  | sql
  | test
  | clear
  | help
  | exit
  | other
deriving Repr, DecidableEq

/-- The match on input.trim() in main_loop (src/main.rs:172). -/
def classify_top (line : String) : TopTok :=
  match str_trim line with
  | "cmd" => .cmd
  | "git" => .git
  | "sql" => .sql
  | "test" => .test
  | "clear" => .clear
  | "help" => .help
  | "exit" => .exit
  | _ => .other

/-- The println sequence of cmd_help (src/cmd.rs:156). -/
def cmd_help_effects : List Effect :=
  [.print "\nCOMMANDS",
   .print "'any'         -> run a Linux cmd, ensure syntax is correct",
   .print "'install'     -> install a package",
   .print "'remove'      -> uninstall a package",
   .print "'clear'       -> clears the terminal",
   .print "'exit'        -> exit cmd"]

/-- The println sequence of git_help (src/cmd.rs:300). -/
def git_help_effects : List Effect :=
  [.print "\nCOMMANDS",
   .print "'any'     -> run a git command, ensure syntax is correct",
   .print "'change'  -> change git directory",
   .print "'clear'   -> clears the terminal",
   .print "'exit'    -> exit git"]

/-- The println sequence of sql_help (src/cmd.rs:416). -/
def sql_help_effects : List Effect :=
  [.print "\nCOMMANDS",
   .print "'any'         -> run a sql query, ensure syntax is correct",
   .print "'change db'   -> show current database",
   .print "'clear'       -> clears the terminal",
   .print "'exit'        -> exit sql"]

/-- The println sequence of helpers::help (src/cmd.rs:565). -/
def top_help_effects : List Effect :=
  [.print "\nCOMMANDS",
   .print "'cmd'     -> run a Linux command",
   .print "'test'    -> run Python unit tests",
   .print "'git'     -> run a git command in a repository",
   .print "'sql'     -> run a sql query, run 'help' for assistance",
   .print "'clear'   -> clear the terminal",
   .print "'exit'    -> exit wcli"]

/-- The loop of cmd (src/cmd.rs:36): the trace of effects produced and the
input lines left over when the loop breaks at exit. The sudo branch passes
the raw line, install and remove read a raw package line, the default
branch trims the line (src/cmd.rs:43-49). In the install and remove
branches with exhausted input, rest is the empty list. -/
def cmd_loop (tr : String → Output) (password : String) : List String → List Effect × List String
  | [] => ([], [])
  | line :: rest =>
    match classify_shell line with
    | .sudo =>
      (.prompt ">>> " :: .exec (run_cmd_sudo password line) (tr (run_cmd_sudo password line)) ::
        print_cmd (tr (run_cmd_sudo password line)) :: (cmd_loop tr password rest).1,
       (cmd_loop tr password rest).2)
    | .install =>
      match rest with
      | [] =>
        ([.prompt ">>> ", .prompt "Package", .exec (install_cmd password "") (tr (install_cmd password "")),
          print_cmd (tr (install_cmd password ""))], [])
      | package :: rest2 =>
        (.prompt ">>> " :: .prompt "Package" ::
          .exec (install_cmd password package) (tr (install_cmd password package)) ::
          print_cmd (tr (install_cmd password package)) :: (cmd_loop tr password rest2).1,
         (cmd_loop tr password rest2).2)
    | .remove =>
      match rest with
      | [] =>
        ([.prompt ">>> ", .prompt "Package", .exec (remove_cmd password "") (tr (remove_cmd password "")),
          print_cmd (tr (remove_cmd password ""))], [])
      | package :: rest2 =>
        (.prompt ">>> " :: .prompt "Package" ::
          .exec (remove_cmd password package) (tr (remove_cmd password package)) ::
          print_cmd (tr (remove_cmd password package)) :: (cmd_loop tr password rest2).1,
         (cmd_loop tr password rest2).2)
    | .clear =>
      (.prompt ">>> " :: .clearScreen :: (cmd_loop tr password rest).1,
       (cmd_loop tr password rest).2)
    | .help =>
      (.prompt ">>> " :: cmd_help_effects ++ (cmd_loop tr password rest).1,
       (cmd_loop tr password rest).2)
    | .exit => ([.prompt ">>> "], rest)
    | .plain =>
      (.prompt ">>> " :: .exec (str_trim line) (tr (str_trim line)) ::
        print_cmd (tr (str_trim line)) :: (cmd_loop tr password rest).1,
       (cmd_loop tr password rest).2)

/-- Entry of cmd (src/cmd.rs:34): header line, then the loop. -/
def cmd_mode (tr : String → Output) (password : String) (inputs : List String) :
    List Effect × List String :=
  let r := cmd_loop tr password inputs
  (.print "Run 'help' for commands\n" :: r.1, r.2)

/-- The loop of run_git (src/cmd.rs:258) with the call stack of session
directories made explicit. The first list is the stack of directories of
the nested run_git activations, innermost first; the change keyword reads
a new directory and pushes it (the nested recursive call at src/cmd.rs:263),
exit pops (break, returning from the nested call). An empty stack means
control has left git mode; the unread input is returned. Reading a
directory at exhausted input yields the empty string. The default branch
runs git_cmd on the trimmed directory and the raw line (src/cmd.rs:266). -/
def run_git_loop (tr : String → Output) : List String → List String → List Effect × List String
  | [], inputs => ([], inputs)
  | _ :: _, [] => ([], [])
  | directory :: outer, line :: rest =>
    match classify_git line with
    | .exit =>
      (.prompt ">>> " :: (run_git_loop tr outer rest).1, (run_git_loop tr outer rest).2)
    | .change =>
      match rest with
      | [] =>
        ([.prompt ">>> ", .prompt "Repo path", .print "Run 'help' for commands\n"], [])
      | d2 :: rest2 =>
        (.prompt ">>> " :: .prompt "Repo path" :: .print "Run 'help' for commands\n" ::
          (run_git_loop tr (d2 :: directory :: outer) rest2).1,
         (run_git_loop tr (d2 :: directory :: outer) rest2).2)
    | .clear =>
      (.prompt ">>> " :: .clearScreen :: (run_git_loop tr (directory :: outer) rest).1,
       (run_git_loop tr (directory :: outer) rest).2)
    | .help =>
      (.prompt ">>> " :: git_help_effects ++ (run_git_loop tr (directory :: outer) rest).1,
       (run_git_loop tr (directory :: outer) rest).2)
    | .plain =>
      (.prompt ">>> " :: .exec (git_cmd (str_trim directory) line)
          (tr (git_cmd (str_trim directory) line)) ::
        print_cmd (tr (git_cmd (str_trim directory) line)) ::
        (run_git_loop tr (directory :: outer) rest).1,
       (run_git_loop tr (directory :: outer) rest).2)

/-- Entry of run_git (src/cmd.rs:254): prompt for the repository path, print
the header, run the loop with that single session on the stack. -/
def run_git (tr : String → Output) (inputs : List String) : List Effect × List String :=
  let p := read_ln inputs
  let r := run_git_loop tr [p.1] p.2
  (.prompt "Repo path" :: .print "Run 'help' for commands\n" :: r.1, r.2)

/-- The loop of run_sql (src/cmd.rs:358) with the call stack of session
database names made explicit, exactly as in run_git_loop. The change
keyword re-enters run_sql (src/cmd.rs:366): it first re-runs
test_sql_connection, which panics when the connection command fails
(modelled by Effect.fatal ending the whole trace), then reads and pushes a
new database name. The default branch runs sql_query on the trimmed
database and trimmed line (src/cmd.rs:369). -/
def run_sql_loop (tr : String → Output) (password : String) :
    List String → List String → List Effect × List String
  | [], inputs => ([], inputs)
  | _ :: _, [] => ([], [])
  | database :: outer, line :: rest =>
    match classify_sql line with
    | .exit =>
      (.prompt ">>> " :: (run_sql_loop tr password outer rest).1,
       (run_sql_loop tr password outer rest).2)
    | .database =>
      (.prompt ">>> " :: .print ("In database: " ++ database) ::
        (run_sql_loop tr password (database :: outer) rest).1,
       (run_sql_loop tr password (database :: outer) rest).2)
    | .change =>
      if (tr (sql_test_cmd password)).success then
        match rest with
        | [] =>
          ([.prompt ">>> ", .exec (sql_test_cmd password) (tr (sql_test_cmd password)),
            .print "Connected to mariadb", .prompt "Database",
            .print "Run 'help' for commands\n"], [])
        | d2 :: rest2 =>
          (.prompt ">>> " :: .exec (sql_test_cmd password) (tr (sql_test_cmd password)) ::
            .print "Connected to mariadb" :: .prompt "Database" ::
            .print "Run 'help' for commands\n" ::
            (run_sql_loop tr password (d2 :: database :: outer) rest2).1,
           (run_sql_loop tr password (d2 :: database :: outer) rest2).2)
      else
        ([.prompt ">>> ", .exec (sql_test_cmd password) (tr (sql_test_cmd password)),
          .fatal "unable to connect to mariadb"], [])
    | .clear =>
      (.prompt ">>> " :: .clearScreen :: (run_sql_loop tr password (database :: outer) rest).1,
       (run_sql_loop tr password (database :: outer) rest).2)
    | .help =>
      (.prompt ">>> " :: sql_help_effects ++ (run_sql_loop tr password (database :: outer) rest).1,
       (run_sql_loop tr password (database :: outer) rest).2)
    | .plain =>
      (.prompt ">>> " ::
        .exec (sql_cmd password (str_trim database) (str_trim line))
          (tr (sql_cmd password (str_trim database) (str_trim line))) ::
        print_cmd (tr (sql_cmd password (str_trim database) (str_trim line))) ::
        (run_sql_loop tr password (database :: outer) rest).1,
       (run_sql_loop tr password (database :: outer) rest).2)

/-- Entry of run_sql (src/cmd.rs:352): test_sql_connection first (panic on
failure, modelled by Effect.fatal ending the trace), then prompt for the
database and run the loop. -/
def run_sql (tr : String → Output) (password : String) (inputs : List String) :
    List Effect × List String :=
  let tc := sql_test_cmd password
  if (tr tc).success then
    let p := read_ln inputs
    let r := run_sql_loop tr password [p.1] p.2
    (.exec tc (tr tc) :: .print "Connected to mariadb" :: .prompt "Database" ::
      .print "Run 'help' for commands\n" :: r.1, r.2)
  else
    ([.exec tc (tr tc), .fatal "unable to connect to mariadb"], [])

/-- run_unittests together with test_cmd (src/cmd.rs:465 and 489): read the
three parameters, build the command, run it once, and report the elapsed
seconds (supplied by the oracle argument, as Instant is external) plus
stdout on success or stderr on failure. No loop and no keyword handling. -/
def run_unittests (tr : String → Output) (elapsed : Nat) (inputs : List String) :
    List Effect × List String :=
  let p1 := read_ln inputs
  let p2 := read_ln p1.2
  let p3 := read_ln p2.2
  let c := unittest_cmd p1.1 p2.1 p3.1
  let o := tr c
  ([.prompt "Repo path", .prompt "venv name", .prompt "Tests path", .exec c o] ++
    (if o.success then
      [.print ("\nAll tests passed in " ++ toString elapsed ++ "s"), .print o.stdout]
    else
      [.print ("\nTests failed after " ++ toString elapsed ++ "s"), .print o.stderr]), p3.2)

/-- main_loop (src/main.rs:158). The fuel argument only bounds the number
of iterations of the unbounded Rust loop; any fuel of at least the number
of input lines is exact. Returns the trace together with some code when
the process terminated through process::exit, none when input ran out. -/
def main_loop (tr : String → Output) (elapsed : Nat) (password user : String) :
    Nat → List String → List Effect × Option Nat
  | 0, _ => ([], none)
  | _ + 1, [] => ([], none)
  | fuel + 1, line :: rest =>
    match classify_top line with
    | .cmd =>
      (.prompt ("[" ++ user ++ "@wcli ~]$ ") :: (cmd_mode tr password rest).1 ++
        (main_loop tr elapsed password user fuel (cmd_mode tr password rest).2).1,
       (main_loop tr elapsed password user fuel (cmd_mode tr password rest).2).2)
    | .git =>
      (.prompt ("[" ++ user ++ "@wcli ~]$ ") :: (run_git tr rest).1 ++
        (main_loop tr elapsed password user fuel (run_git tr rest).2).1,
       (main_loop tr elapsed password user fuel (run_git tr rest).2).2)
    | .sql =>
      (.prompt ("[" ++ user ++ "@wcli ~]$ ") :: (run_sql tr password rest).1 ++
        (main_loop tr elapsed password user fuel (run_sql tr password rest).2).1,
       (main_loop tr elapsed password user fuel (run_sql tr password rest).2).2)
    | .test =>
      (.prompt ("[" ++ user ++ "@wcli ~]$ ") :: (run_unittests tr elapsed rest).1 ++
        (main_loop tr elapsed password user fuel (run_unittests tr elapsed rest).2).1,
       (main_loop tr elapsed password user fuel (run_unittests tr elapsed rest).2).2)
    | .clear =>
      (.prompt ("[" ++ user ++ "@wcli ~]$ ") :: .clearScreen ::
        (main_loop tr elapsed password user fuel rest).1,
       (main_loop tr elapsed password user fuel rest).2)
    | .help =>
      (.prompt ("[" ++ user ++ "@wcli ~]$ ") :: top_help_effects ++
        (main_loop tr elapsed password user fuel rest).1,
       (main_loop tr elapsed password user fuel rest).2)
    | .exit => ([.prompt ("[" ++ user ++ "@wcli ~]$ ")], some 1)
    | .other =>
      (.prompt ("[" ++ user ++ "@wcli ~]$ ") :: .print "invalid command, run 'help' for commands" ::
        (main_loop tr elapsed password user fuel rest).1,
       (main_loop tr elapsed password user fuel rest).2)

/-- char::make_ascii_uppercase: ASCII lowercase letters are uppercased,
every other character is unchanged. -/
def make_ascii_uppercase (c : Char) : Char :=
  if 'a' ≤ c ∧ c ≤ 'z' then Char.ofNat (c.toNat - 32) else c

/-- helpers::capitalise (src/cmd.rs:597). The Rust function collects the
chars and writes chars[0], which panics (index out of bounds) on the empty
string; the panic is modelled as none. -/
def capitalise (user : String) : Option String :=
  match user.data with
  | [] => none
  | c :: cs => some (String.mk (make_ascii_uppercase c :: cs))

/-- Whether the first list occurs at the head of the second. -/
def starts_with_chars : List Char → List Char → Bool
  | [], _ => true
  | _ :: _, [] => false
  | a :: as, b :: bs => a == b && starts_with_chars as bs

/-- The positions at which needle occurs as a contiguous substring of hay. -/
def occ_positions (needle hay : String) : List Nat :=
  (List.range (hay.data.length + 1)).filter
    (fun i => starts_with_chars needle.data (hay.data.drop i))

/-- How many times needle occurs as a contiguous substring of hay. -/
def count_occ (needle hay : String) : Nat := (occ_positions needle hay).length

/-- A transport oracle whose every command succeeds with empty output. -/
def tr_stub : String → Output := fun _ => { success := true, stdout := "", stderr := "" }

/-- A transport oracle whose every command fails. -/
def tr_fail : String → Output := fun _ => { success := false, stdout := "out", stderr := "err" }

/-! Branch equations for the loops, used to assemble the claim theorems. -/

theorem cmd_loop_sudo_eq (tr : String → Output) (password line : String) (rest : List String)
    (h : classify_shell line = .sudo) :
    cmd_loop tr password (line :: rest) =
      (.prompt ">>> " :: .exec (run_cmd_sudo password line) (tr (run_cmd_sudo password line)) ::
        print_cmd (tr (run_cmd_sudo password line)) :: (cmd_loop tr password rest).1,
       (cmd_loop tr password rest).2) := by
  cases rest with
  | nil => simp only [cmd_loop, h]
  | cons b bs => simp only [cmd_loop, h]

theorem cmd_loop_install_eq (tr : String → Output) (password line package : String)
    (rest2 : List String) (h : classify_shell line = .install) :
    cmd_loop tr password (line :: package :: rest2) =
      (.prompt ">>> " :: .prompt "Package" ::
        .exec (install_cmd password package) (tr (install_cmd password package)) ::
        print_cmd (tr (install_cmd password package)) :: (cmd_loop tr password rest2).1,
       (cmd_loop tr password rest2).2) := by
  simp only [cmd_loop, h]

theorem cmd_loop_remove_eq (tr : String → Output) (password line package : String)
    (rest2 : List String) (h : classify_shell line = .remove) :
    cmd_loop tr password (line :: package :: rest2) =
      (.prompt ">>> " :: .prompt "Package" ::
        .exec (remove_cmd password package) (tr (remove_cmd password package)) ::
        print_cmd (tr (remove_cmd password package)) :: (cmd_loop tr password rest2).1,
       (cmd_loop tr password rest2).2) := by
  simp only [cmd_loop, h]

theorem cmd_loop_clear_eq (tr : String → Output) (password line : String) (rest : List String)
    (h : classify_shell line = .clear) :
    cmd_loop tr password (line :: rest) =
      (.prompt ">>> " :: .clearScreen :: (cmd_loop tr password rest).1,
       (cmd_loop tr password rest).2) := by
  cases rest with
  | nil => simp only [cmd_loop, h]
  | cons b bs => simp only [cmd_loop, h]

theorem cmd_loop_help_eq (tr : String → Output) (password line : String) (rest : List String)
    (h : classify_shell line = .help) :
    cmd_loop tr password (line :: rest) =
      (.prompt ">>> " :: cmd_help_effects ++ (cmd_loop tr password rest).1,
       (cmd_loop tr password rest).2) := by
  cases rest with
  | nil => simp only [cmd_loop, h]
  | cons b bs => simp only [cmd_loop, h]

theorem cmd_loop_exit_eq (tr : String → Output) (password line : String) (rest : List String)
    (h : classify_shell line = .exit) :
    cmd_loop tr password (line :: rest) = ([.prompt ">>> "], rest) := by
  cases rest with
  | nil => simp only [cmd_loop, h]
  | cons b bs => simp only [cmd_loop, h]

theorem cmd_loop_plain_eq (tr : String → Output) (password line : String) (rest : List String)
    (h : classify_shell line = .plain) :
    cmd_loop tr password (line :: rest) =
      (.prompt ">>> " :: .exec (str_trim line) (tr (str_trim line)) ::
        print_cmd (tr (str_trim line)) :: (cmd_loop tr password rest).1,
       (cmd_loop tr password rest).2) := by
  cases rest with
  | nil => simp only [cmd_loop, h]
  | cons b bs => simp only [cmd_loop, h]

theorem run_git_loop_exit_eq (tr : String → Output) (directory line : String)
    (outer rest : List String) (h : classify_git line = .exit) :
    run_git_loop tr (directory :: outer) (line :: rest) =
      (.prompt ">>> " :: (run_git_loop tr outer rest).1, (run_git_loop tr outer rest).2) := by
  cases rest with
  | nil => simp only [run_git_loop, h]
  | cons b bs => simp only [run_git_loop, h]

theorem run_git_loop_change_eq (tr : String → Output) (directory line d2 : String)
    (outer rest2 : List String) (h : classify_git line = .change) :
    run_git_loop tr (directory :: outer) (line :: d2 :: rest2) =
      (.prompt ">>> " :: .prompt "Repo path" :: .print "Run 'help' for commands\n" ::
        (run_git_loop tr (d2 :: directory :: outer) rest2).1,
       (run_git_loop tr (d2 :: directory :: outer) rest2).2) := by
  simp only [run_git_loop, h]

theorem run_git_loop_clear_eq (tr : String → Output) (directory line : String)
    (outer rest : List String) (h : classify_git line = .clear) :
    run_git_loop tr (directory :: outer) (line :: rest) =
      (.prompt ">>> " :: .clearScreen :: (run_git_loop tr (directory :: outer) rest).1,
       (run_git_loop tr (directory :: outer) rest).2) := by
  cases rest with
  | nil => simp only [run_git_loop, h]
  | cons b bs => simp only [run_git_loop, h]

theorem run_git_loop_help_eq (tr : String → Output) (directory line : String)
    (outer rest : List String) (h : classify_git line = .help) :
    run_git_loop tr (directory :: outer) (line :: rest) =
      (.prompt ">>> " :: git_help_effects ++ (run_git_loop tr (directory :: outer) rest).1,
       (run_git_loop tr (directory :: outer) rest).2) := by
  cases rest with
  | nil => simp only [run_git_loop, h]
  | cons b bs => simp only [run_git_loop, h]

theorem run_git_loop_plain_eq (tr : String → Output) (directory line : String)
    (outer rest : List String) (h : classify_git line = .plain) :
    run_git_loop tr (directory :: outer) (line :: rest) =
      (.prompt ">>> " :: .exec (git_cmd (str_trim directory) line)
          (tr (git_cmd (str_trim directory) line)) ::
        print_cmd (tr (git_cmd (str_trim directory) line)) ::
        (run_git_loop tr (directory :: outer) rest).1,
       (run_git_loop tr (directory :: outer) rest).2) := by
  cases rest with
  | nil => simp only [run_git_loop, h]
  | cons b bs => simp only [run_git_loop, h]

theorem run_sql_loop_exit_eq (tr : String → Output) (password database line : String)
    (outer rest : List String) (h : classify_sql line = .exit) :
    run_sql_loop tr password (database :: outer) (line :: rest) =
      (.prompt ">>> " :: (run_sql_loop tr password outer rest).1,
       (run_sql_loop tr password outer rest).2) := by
  cases rest with
  | nil => simp only [run_sql_loop, h]
  | cons b bs => simp only [run_sql_loop, h]

theorem run_sql_loop_clear_eq (tr : String → Output) (password database line : String)
    (outer rest : List String) (h : classify_sql line = .clear) :
    run_sql_loop tr password (database :: outer) (line :: rest) =
      (.prompt ">>> " :: .clearScreen :: (run_sql_loop tr password (database :: outer) rest).1,
       (run_sql_loop tr password (database :: outer) rest).2) := by
  cases rest with
  | nil => simp only [run_sql_loop, h]
  | cons b bs => simp only [run_sql_loop, h]

theorem run_sql_loop_help_eq (tr : String → Output) (password database line : String)
    (outer rest : List String) (h : classify_sql line = .help) :
    run_sql_loop tr password (database :: outer) (line :: rest) =
      (.prompt ">>> " :: sql_help_effects ++ (run_sql_loop tr password (database :: outer) rest).1,
       (run_sql_loop tr password (database :: outer) rest).2) := by
  cases rest with
  | nil => simp only [run_sql_loop, h]
  | cons b bs => simp only [run_sql_loop, h]

theorem run_sql_loop_plain_eq (tr : String → Output) (password database line : String)
    (outer rest : List String) (h : classify_sql line = .plain) :
    run_sql_loop tr password (database :: outer) (line :: rest) =
      (.prompt ">>> " ::
        .exec (sql_cmd password (str_trim database) (str_trim line))
          (tr (sql_cmd password (str_trim database) (str_trim line))) ::
        print_cmd (tr (sql_cmd password (str_trim database) (str_trim line))) ::
        (run_sql_loop tr password (database :: outer) rest).1,
       (run_sql_loop tr password (database :: outer) rest).2) := by
  cases rest with
  | nil => simp only [run_sql_loop, h]
  | cons b bs => simp only [run_sql_loop, h]

theorem run_git_loop_nil_stack (tr : String → Output) (inputs : List String) :
    run_git_loop tr [] inputs = ([], inputs) := by
  cases inputs with
  | nil => simp only [run_git_loop]
  | cons b bs => simp only [run_git_loop]

/-- n repetitions of a change keyword line followed by a directory line,
the input that re-enters git mode n times. -/
def change_block (n : Nat) (d : String) : List String :=
  match n with
  | 0 => []
  | k + 1 => "change" :: d :: change_block k d

/-- The prompts and header prints produced by n change re-entries. -/
def change_effects (n : Nat) : List Effect :=
  match n with
  | 0 => []
  | k + 1 =>
    .prompt ">>> " :: .prompt "Repo path" :: .print "Run 'help' for commands\n" ::
      change_effects k

theorem run_git_loop_change_block (tr : String → Output) (d2 : String) :
    ∀ (n : Nat) (a : String) (st xs : List String),
    run_git_loop tr (a :: st) (change_block n d2 ++ xs) =
      (change_effects n ++ (run_git_loop tr (List.replicate n d2 ++ a :: st) xs).1,
       (run_git_loop tr (List.replicate n d2 ++ a :: st) xs).2) := by
  intro n
  induction n with
  | zero =>
    intro a st xs
    simp [change_block, change_effects]
  | succ k ih =>
    intro a st xs
    have hch : classify_git "change" = .change := by decide
    simp only [change_block, List.cons_append]
    rw [run_git_loop_change_eq tr a "change" d2 st (change_block k d2 ++ xs) hch]
    rw [ih d2 (a :: st) xs]
    have hst : List.replicate (k + 1) d2 ++ a :: st = List.replicate k d2 ++ d2 :: a :: st := by
      rw [List.replicate_succ', List.append_assoc]
      simp
    rw [hst]
    simp [change_effects]

theorem run_git_loop_exit_block (tr : String → Output) (d2 : String) :
    ∀ (n : Nat) (st xs : List String),
    run_git_loop tr (List.replicate n d2 ++ st) (List.replicate n "exit" ++ xs) =
      (List.replicate n (Effect.prompt ">>> ") ++ (run_git_loop tr st xs).1,
       (run_git_loop tr st xs).2) := by
  intro n
  induction n with
  | zero =>
    intro st xs
    simp
  | succ k ih =>
    intro st xs
    have hx : classify_git "exit" = .exit := by decide
    simp only [List.replicate_succ, List.cons_append]
    rw [run_git_loop_exit_eq tr d2 "exit" (List.replicate k d2 ++ st)
      (List.replicate k "exit" ++ xs) hx]
    rw [ih st xs]

/-! The claim theorems. -/

/-- C1, counterexample: at a failed outcome with empty stderr and non-empty
stdout, print_cmd prints the empty stderr, not the stdout, refuting the
claimed fallback to stdout when stderr is absent. -/
theorem print_cmd_no_stdout_fallback_cex :
    (Output.mk false "out" "").success = false ∧
    (Output.mk false "out" "").stderr = "" ∧
    print_cmd (Output.mk false "out" "") = .print "" ∧
    print_cmd (Output.mk false "out" "") ≠ .print "out" := by
  refine ⟨rfl, rfl, rfl, ?_⟩
  decide

/-- C1, amended: for every failed outcome the outcome-printing operation
prints the remote stderr verbatim, even when it is empty — it never falls
back to stdout — and in shell mode a failed plain command is followed by
the loop reading the next line, so control returns to the prompt. -/
theorem print_cmd_failure_prints_stderr :
    (∀ o : Output, o.success = false → print_cmd o = .print o.stderr) ∧
    (∀ (tr : String → Output) (password line : String) (rest : List String),
      classify_shell line = .plain →
      (tr (str_trim line)).success = false →
      cmd_loop tr password (line :: rest) =
        (.prompt ">>> " :: .exec (str_trim line) (tr (str_trim line)) ::
          .print (tr (str_trim line)).stderr :: (cmd_loop tr password rest).1,
         (cmd_loop tr password rest).2)) := by
  constructor
  · intro o h
    simp [print_cmd, h]
  · intro tr password line rest hc hf
    rw [cmd_loop_plain_eq tr password line rest hc]
    simp [print_cmd, hf]

/-- C1, witness: the amended theorem applied to a concrete failed outcome
and to the concrete line ls under an always-failing transport. -/
theorem print_cmd_failure_prints_stderr_witness :
    print_cmd (Output.mk false "o" "e") = .print "e" ∧
    cmd_loop tr_fail "pw" ["ls", "exit"] =
      (.prompt ">>> " :: .exec (str_trim "ls") (tr_fail (str_trim "ls")) ::
        .print (tr_fail (str_trim "ls")).stderr :: (cmd_loop tr_fail "pw" ["exit"]).1,
       (cmd_loop tr_fail "pw" ["exit"]).2) :=
  ⟨print_cmd_failure_prints_stderr.1 (Output.mk false "o" "e") rfl,
   print_cmd_failure_prints_stderr.2 tr_fail "pw" "ls" ["exit"] (by decide) rfl⟩

/-- C2: the privilege-escalated builder returns exactly
echo, the secret, a pipe, then the line; a line whose first space-delimited
token is the literal sudo is dispatched to that builder with the raw line;
at the spec scenario the constructed command is
echo pw | sudo yum install -y tree, in which the secret pw occurs exactly
once, at position 5, before position 10 where the command begins. -/
theorem run_cmd_sudo_spec :
    (∀ password line : String,
      run_cmd_sudo password line = "echo " ++ password ++ " | " ++ line) ∧
    run_cmd_sudo "pw" "sudo yum install -y tree" = "echo pw | sudo yum install -y tree" ∧
    count_occ "pw" (run_cmd_sudo "pw" "sudo yum install -y tree") = 1 ∧
    occ_positions "pw" (run_cmd_sudo "pw" "sudo yum install -y tree") = [5] ∧
    (∀ line : String, first_token line = "sudo" → classify_shell line = .sudo) ∧
    (∀ (tr : String → Output) (password line : String) (rest : List String),
      classify_shell line = .sudo →
      cmd_loop tr password (line :: rest) =
        (.prompt ">>> " :: .exec (run_cmd_sudo password line) (tr (run_cmd_sudo password line)) ::
          print_cmd (tr (run_cmd_sudo password line)) :: (cmd_loop tr password rest).1,
         (cmd_loop tr password rest).2)) := by
  refine ⟨fun _ _ => rfl, rfl, by decide, by decide, ?_, ?_⟩
  · intro line h
    unfold classify_shell
    rw [h]
    decide
  · intro tr password line rest hc
    exact cmd_loop_sudo_eq tr password line rest hc

/-- C2, witness: the dispatch conjuncts applied to the concrete line
sudo ls with an all-succeeding transport. -/
theorem run_cmd_sudo_spec_witness :
    classify_shell "sudo ls" = .sudo ∧
    cmd_loop tr_stub "pw" ["sudo ls"] =
      (.prompt ">>> " :: .exec (run_cmd_sudo "pw" "sudo ls") (tr_stub (run_cmd_sudo "pw" "sudo ls")) ::
        print_cmd (tr_stub (run_cmd_sudo "pw" "sudo ls")) :: (cmd_loop tr_stub "pw" []).1,
       (cmd_loop tr_stub "pw" []).2) :=
  ⟨run_cmd_sudo_spec.2.2.2.2.1 "sudo ls" (by decide),
   run_cmd_sudo_spec.2.2.2.2.2 tr_stub "pw" "sudo ls" [] (by decide)⟩

/-- C3: the sql-mode builder returns exactly the echo-pipe wrapped
non-interactive mariadb invocation selecting the database then running the
query; in sql mode an unrecognized line is dispatched to it with the
trimmed session database and trimmed line; the spec scenario evaluates to
the expected literal command. -/
theorem sql_cmd_spec :
    (∀ password database query : String,
      sql_cmd password database query =
        "echo " ++ password ++ " | sudo -S mariadb -u root -p -e \"USE " ++
          database ++ "; " ++ query ++ "\"") ∧
    sql_cmd "pw" "mydb" "SELECT 1;" =
      "echo pw | sudo -S mariadb -u root -p -e \"USE mydb; SELECT 1;\"" ∧
    (∀ (tr : String → Output) (password database line : String) (outer rest : List String),
      classify_sql line = .plain →
      run_sql_loop tr password (database :: outer) (line :: rest) =
        (.prompt ">>> " ::
          .exec (sql_cmd password (str_trim database) (str_trim line))
            (tr (sql_cmd password (str_trim database) (str_trim line))) ::
          print_cmd (tr (sql_cmd password (str_trim database) (str_trim line))) ::
          (run_sql_loop tr password (database :: outer) rest).1,
         (run_sql_loop tr password (database :: outer) rest).2)) := by
  refine ⟨fun _ _ _ => rfl, rfl, ?_⟩
  intro tr password database line outer rest hc
  exact run_sql_loop_plain_eq tr password database line outer rest hc

/-- C3, witness: the dispatch conjunct applied to the concrete query of
scenario D inside an sql session on database mydb. -/
theorem sql_cmd_spec_witness :
    run_sql_loop tr_stub "pw" ["mydb\n"] ["SELECT 1;\n"] =
      (.prompt ">>> " ::
        .exec (sql_cmd "pw" (str_trim "mydb\n") (str_trim "SELECT 1;\n"))
          (tr_stub (sql_cmd "pw" (str_trim "mydb\n") (str_trim "SELECT 1;\n"))) ::
        print_cmd (tr_stub (sql_cmd "pw" (str_trim "mydb\n") (str_trim "SELECT 1;\n"))) ::
        (run_sql_loop tr_stub "pw" ["mydb\n"] []).1,
       (run_sql_loop tr_stub "pw" ["mydb\n"] []).2) :=
  sql_cmd_spec.2.2 tr_stub "pw" "mydb\n" "SELECT 1;\n" [] [] (by decide)

/-- C4: the scoped git-mode builder returns exactly cd, the directory, the
and-chain, then the command; in git mode an unrecognized line is dispatched
to it with the trimmed session directory and the raw line; scenario C
evaluates to the expected literal command. -/
theorem git_cmd_spec :
    (∀ directory c : String, git_cmd directory c = "cd " ++ directory ++ " && " ++ c) ∧
    git_cmd "proj/repo" "status" = "cd proj/repo && status" ∧
    (∀ (tr : String → Output) (directory line : String) (outer rest : List String),
      classify_git line = .plain →
      run_git_loop tr (directory :: outer) (line :: rest) =
        (.prompt ">>> " :: .exec (git_cmd (str_trim directory) line)
            (tr (git_cmd (str_trim directory) line)) ::
          print_cmd (tr (git_cmd (str_trim directory) line)) ::
          (run_git_loop tr (directory :: outer) rest).1,
         (run_git_loop tr (directory :: outer) rest).2)) := by
  refine ⟨fun _ _ => rfl, rfl, ?_⟩
  intro tr directory line outer rest hc
  exact run_git_loop_plain_eq tr directory line outer rest hc

/-- C4, witness: the dispatch conjunct applied to scenario C, a git session
on proj/repo where the user types status. -/
theorem git_cmd_spec_witness :
    run_git_loop tr_stub ["proj/repo\n"] ["status"] =
      (.prompt ">>> " :: .exec (git_cmd (str_trim "proj/repo\n") "status")
          (tr_stub (git_cmd (str_trim "proj/repo\n") "status")) ::
        print_cmd (tr_stub (git_cmd (str_trim "proj/repo\n") "status")) ::
        (run_git_loop tr_stub ["proj/repo\n"] []).1,
       (run_git_loop tr_stub ["proj/repo\n"] []).2) :=
  git_cmd_spec.2.2 tr_stub "proj/repo\n" "status" [] [] (by decide)

/-- C10: the username-capitalisation helper maps every non-empty string to
the same string with its first character ASCII-uppercased and all other
characters unchanged, and the empty string to the out-of-bounds panic,
modelled as none; make_ascii_uppercase uppercases exactly the ASCII
lowercase letters. -/
theorem capitalise_spec :
    (∀ (c : Char) (cs : List Char),
      capitalise (String.mk (c :: cs)) = some (String.mk (make_ascii_uppercase c :: cs))) ∧
    capitalise "" = none ∧
    capitalise "josh" = some "Josh" ∧
    make_ascii_uppercase 'a' = 'A' ∧
    make_ascii_uppercase 'Z' = 'Z' ∧
    make_ascii_uppercase '1' = '1' := by
  refine ⟨fun c cs => rfl, rfl, by decide, by decide, by decide, by decide⟩

/-- C5, counterexample: the test-mode interpreter given the input line exit
does not recognize it — the line is consumed as the repository path,
interpolated into the constructed command, a remote command is still
executed, and the interpreter returns after the single pass, so test mode
is not a loop with exit, clear and help keywords. -/
theorem test_mode_ignores_exit_cex :
    unittest_cmd "exit" "v" "t" =
      "cd exit && source v/bin/activate && python3 -m unittest discover t" ∧
    Effect.exec (unittest_cmd "exit" "v" "t") (tr_stub (unittest_cmd "exit" "v" "t")) ∈
      (run_unittests tr_stub 0 ["exit", "v", "t"]).1 ∧
    (run_unittests tr_stub 0 ["exit", "v", "t"]).2 = [] := by
  refine ⟨by decide, ?_, rfl⟩
  decide

/-- C5, amended: the shell, git and sql mode interpreters each run a
read-classify-dispatch-report loop that continues until their local exit
keyword, and each recognizes exit, clear and help; the test-mode
interpreter is not a loop: it performs one prompted build-and-run pass
over exactly three input lines and recognizes no keywords. -/
theorem mode_loops_amended :
    ∀ (tr : String → Output) (password : String) (e : Nat)
      (rest outer : List String) (d db a b c : String),
      cmd_loop tr password ("exit" :: rest) = ([.prompt ">>> "], rest) ∧
      cmd_loop tr password ("clear" :: rest) =
        (.prompt ">>> " :: .clearScreen :: (cmd_loop tr password rest).1,
         (cmd_loop tr password rest).2) ∧
      cmd_loop tr password ("help" :: rest) =
        (.prompt ">>> " :: cmd_help_effects ++ (cmd_loop tr password rest).1,
         (cmd_loop tr password rest).2) ∧
      run_git_loop tr [d] ("exit" :: rest) = ([.prompt ">>> "], rest) ∧
      run_git_loop tr (d :: outer) ("clear" :: rest) =
        (.prompt ">>> " :: .clearScreen :: (run_git_loop tr (d :: outer) rest).1,
         (run_git_loop tr (d :: outer) rest).2) ∧
      run_git_loop tr (d :: outer) ("help" :: rest) =
        (.prompt ">>> " :: git_help_effects ++ (run_git_loop tr (d :: outer) rest).1,
         (run_git_loop tr (d :: outer) rest).2) ∧
      run_sql_loop tr password [db] ("exit" :: rest) = ([.prompt ">>> "], rest) ∧
      run_sql_loop tr password (db :: outer) ("clear" :: rest) =
        (.prompt ">>> " :: .clearScreen :: (run_sql_loop tr password (db :: outer) rest).1,
         (run_sql_loop tr password (db :: outer) rest).2) ∧
      run_sql_loop tr password (db :: outer) ("help" :: rest) =
        (.prompt ">>> " :: sql_help_effects ++ (run_sql_loop tr password (db :: outer) rest).1,
         (run_sql_loop tr password (db :: outer) rest).2) ∧
      run_unittests tr e (a :: b :: c :: rest) =
        ([.prompt "Repo path", .prompt "venv name", .prompt "Tests path",
          .exec (unittest_cmd a b c) (tr (unittest_cmd a b c))] ++
          (if (tr (unittest_cmd a b c)).success then
            [.print ("\nAll tests passed in " ++ toString e ++ "s"),
             .print (tr (unittest_cmd a b c)).stdout]
          else
            [.print ("\nTests failed after " ++ toString e ++ "s"),
             .print (tr (unittest_cmd a b c)).stderr]), rest) := by
  intro tr password e rest outer d db a b c
  refine ⟨cmd_loop_exit_eq tr password "exit" rest (by decide),
    cmd_loop_clear_eq tr password "clear" rest (by decide),
    cmd_loop_help_eq tr password "help" rest (by decide),
    ?_,
    run_git_loop_clear_eq tr d "clear" outer rest (by decide),
    run_git_loop_help_eq tr d "help" outer rest (by decide),
    ?_,
    run_sql_loop_clear_eq tr password db "clear" outer rest (by decide),
    run_sql_loop_help_eq tr password db "help" outer rest (by decide),
    ?_⟩
  · rw [run_git_loop_exit_eq tr d "exit" [] rest (by decide), run_git_loop_nil_stack]
  · rw [run_sql_loop_exit_eq tr password db "exit" [] rest (by decide)]
    cases rest with
    | nil => simp only [run_sql_loop]
    | cons r rs => simp only [run_sql_loop]
  · simp [run_unittests, read_ln]

/-- C6: the test-mode interpreter builds the command that activates the
named virtual environment and runs the test runner over the test path,
executes it once, and in both the success and the failure case reports the
elapsed seconds together with the full corresponding output stream —
stdout when the command succeeded, stderr when it failed. -/
theorem test_reports_elapsed_and_output :
    ∀ (tr : String → Output) (e : Nat) (d v t : String) (rest : List String),
      run_unittests tr e (d :: v :: t :: rest) =
        ([.prompt "Repo path", .prompt "venv name", .prompt "Tests path",
          .exec (unittest_cmd d v t) (tr (unittest_cmd d v t))] ++
          (if (tr (unittest_cmd d v t)).success then
            [.print ("\nAll tests passed in " ++ toString e ++ "s"),
             .print (tr (unittest_cmd d v t)).stdout]
          else
            [.print ("\nTests failed after " ++ toString e ++ "s"),
             .print (tr (unittest_cmd d v t)).stderr]), rest) := by
  intro tr e d v t rest
  simp [run_unittests, read_ln]

/-- C7: an exit line at the top-level dispatcher terminates the process
through process::exit with status 1, which is non-zero. -/
theorem top_exit_nonzero_status :
    ∀ (tr : String → Output) (e : Nat) (password user : String)
      (fuel : Nat) (rest : List String),
      main_loop tr e password user (fuel + 1) ("exit" :: rest) =
        ([.prompt ("[" ++ user ++ "@wcli ~]$ ")], some 1) ∧ (1 : Nat) ≠ 0 := by
  intro tr e password user fuel rest
  constructor
  · have h : classify_top "exit" = .exit := by decide
    simp only [main_loop, h]
  · decide

/-- C8: in shell mode a line classified privileged is interpolated into the
constructed command raw, and the package line read by install or remove is
interpolated raw, so a trailing newline of the raw input survives into the
constructed string; a line matching no reserved keyword is trimmed of
leading and trailing whitespace before being handed to the transport. -/
theorem shell_trim_asymmetry :
    (∀ (tr : String → Output) (password line : String) (rest : List String),
      classify_shell line = .sudo →
      (cmd_loop tr password (line :: rest)).1 =
        .prompt ">>> " :: .exec (run_cmd_sudo password line) (tr (run_cmd_sudo password line)) ::
          print_cmd (tr (run_cmd_sudo password line)) :: (cmd_loop tr password rest).1) ∧
    (∀ password l : String,
      run_cmd_sudo password (l ++ "\n") = ("echo " ++ password ++ " | " ++ l) ++ "\n") ∧
    (∀ (tr : String → Output) (password line package : String) (rest2 : List String),
      classify_shell line = .install →
      (cmd_loop tr password (line :: package :: rest2)).1 =
        .prompt ">>> " :: .prompt "Package" ::
          .exec (install_cmd password package) (tr (install_cmd password package)) ::
          print_cmd (tr (install_cmd password package)) :: (cmd_loop tr password rest2).1) ∧
    (∀ password p : String,
      install_cmd password (p ++ "\n") =
        ("echo " ++ password ++ " | sudo yum install -y " ++ p) ++ "\n") ∧
    (∀ (tr : String → Output) (password line package : String) (rest2 : List String),
      classify_shell line = .remove →
      (cmd_loop tr password (line :: package :: rest2)).1 =
        .prompt ">>> " :: .prompt "Package" ::
          .exec (remove_cmd password package) (tr (remove_cmd password package)) ::
          print_cmd (tr (remove_cmd password package)) :: (cmd_loop tr password rest2).1) ∧
    (∀ password p : String,
      remove_cmd password (p ++ "\n") =
        ("echo " ++ password ++ " | sudo yum remove -y " ++ p) ++ "\n") ∧
    (∀ (tr : String → Output) (password line : String) (rest : List String),
      classify_shell line = .plain →
      (cmd_loop tr password (line :: rest)).1 =
        .prompt ">>> " :: .exec (str_trim line) (tr (str_trim line)) ::
          print_cmd (tr (str_trim line)) :: (cmd_loop tr password rest).1) := by
  refine ⟨?_, ?_, ?_, ?_, ?_, ?_, ?_⟩
  · intro tr password line rest hc
    rw [cmd_loop_sudo_eq tr password line rest hc]
  · intro password l
    simp [run_cmd_sudo, String.append_assoc]
  · intro tr password line package rest2 hc
    rw [cmd_loop_install_eq tr password line package rest2 hc]
  · intro password p
    simp [install_cmd, String.append_assoc]
  · intro tr password line package rest2 hc
    rw [cmd_loop_remove_eq tr password line package rest2 hc]
  · intro password p
    simp [remove_cmd, String.append_assoc]
  · intro tr password line rest hc
    rw [cmd_loop_plain_eq tr password line rest hc]

/-- C8, witness: the three dispatch conjuncts applied to concrete raw lines
carrying their trailing newlines, and to a plain line with surrounding
whitespace. -/
theorem shell_trim_asymmetry_witness :
    (cmd_loop tr_stub "pw" ["sudo ls\n"]).1 =
      .prompt ">>> " :: .exec (run_cmd_sudo "pw" "sudo ls\n") (tr_stub (run_cmd_sudo "pw" "sudo ls\n")) ::
        print_cmd (tr_stub (run_cmd_sudo "pw" "sudo ls\n")) :: (cmd_loop tr_stub "pw" []).1 ∧
    (cmd_loop tr_stub "pw" ["install\n", "tree\n"]).1 =
      .prompt ">>> " :: .prompt "Package" ::
        .exec (install_cmd "pw" "tree\n") (tr_stub (install_cmd "pw" "tree\n")) ::
        print_cmd (tr_stub (install_cmd "pw" "tree\n")) :: (cmd_loop tr_stub "pw" []).1 ∧
    (cmd_loop tr_stub "pw" [" ls \n"]).1 =
      .prompt ">>> " :: .exec (str_trim " ls \n") (tr_stub (str_trim " ls \n")) ::
        print_cmd (tr_stub (str_trim " ls \n")) :: (cmd_loop tr_stub "pw" []).1 :=
  ⟨shell_trim_asymmetry.1 tr_stub "pw" "sudo ls\n" [] (by decide),
   shell_trim_asymmetry.2.2.1 tr_stub "pw" "install\n" "tree\n" [] (by decide),
   shell_trim_asymmetry.2.2.2.2.2.2 tr_stub "pw" " ls \n" [] (by decide)⟩

/-- C9: the change keyword re-enters git mode through a nested recursive
call, pushing a new session rather than replacing the directory: after n
change re-entries and n exits the command c still runs inside git mode
against the original outermost directory, and only the following exit, the
n plus first, returns control with exactly the remaining input; explicitly,
one change to d2 runs c against d2, and after the nested exit the next c
runs against the unchanged original d1. -/
theorem git_change_nesting :
    ∀ (tr : String → Output) (d1 d2 c : String) (rest : List String) (n : Nat),
      classify_git c = .plain →
      (run_git_loop tr [d1]
          (change_block n d2 ++ List.replicate n "exit" ++ (c :: "exit" :: rest))).2 = rest ∧
      Effect.exec (git_cmd (str_trim d1) c) (tr (git_cmd (str_trim d1) c)) ∈
        (run_git_loop tr [d1]
          (change_block n d2 ++ List.replicate n "exit" ++ (c :: "exit" :: rest))).1 ∧
      run_git_loop tr [d1] ("change" :: d2 :: c :: "exit" :: c :: "exit" :: rest) =
        ([.prompt ">>> ", .prompt "Repo path", .print "Run 'help' for commands\n",
          .prompt ">>> ", .exec (git_cmd (str_trim d2) c) (tr (git_cmd (str_trim d2) c)),
          print_cmd (tr (git_cmd (str_trim d2) c)),
          .prompt ">>> ",
          .prompt ">>> ", .exec (git_cmd (str_trim d1) c) (tr (git_cmd (str_trim d1) c)),
          print_cmd (tr (git_cmd (str_trim d1) c)),
          .prompt ">>> "], rest) := by
  intro tr d1 d2 c rest n hc
  have hx : classify_git "exit" = .exit := by decide
  have hch : classify_git "change" = .change := by decide
  have tail_eq : run_git_loop tr [d1] (c :: "exit" :: rest) =
      ([.prompt ">>> ", .exec (git_cmd (str_trim d1) c) (tr (git_cmd (str_trim d1) c)),
        print_cmd (tr (git_cmd (str_trim d1) c)), .prompt ">>> "], rest) := by
    rw [run_git_loop_plain_eq tr d1 c [] ("exit" :: rest) hc,
      run_git_loop_exit_eq tr d1 "exit" [] rest hx, run_git_loop_nil_stack]
  have key : run_git_loop tr [d1]
      (change_block n d2 ++ List.replicate n "exit" ++ (c :: "exit" :: rest)) =
      (change_effects n ++ (List.replicate n (Effect.prompt ">>> ") ++
        [.prompt ">>> ", .exec (git_cmd (str_trim d1) c) (tr (git_cmd (str_trim d1) c)),
         print_cmd (tr (git_cmd (str_trim d1) c)), .prompt ">>> "]), rest) := by
    rw [List.append_assoc,
      run_git_loop_change_block tr d2 n d1 [] (List.replicate n "exit" ++ (c :: "exit" :: rest)),
      run_git_loop_exit_block tr d2 n [d1] (c :: "exit" :: rest), tail_eq]
  refine ⟨by rw [key], ?_, ?_⟩
  · rw [key]
    simp
  · rw [run_git_loop_change_eq tr d1 "change" d2 [] (c :: "exit" :: c :: "exit" :: rest) hch,
      run_git_loop_plain_eq tr d2 c [d1] ("exit" :: c :: "exit" :: rest) hc,
      run_git_loop_exit_eq tr d2 "exit" [d1] (c :: "exit" :: rest) hx, tail_eq]

/-- C9, witness: the theorem applied at a stub transport, directories a and
b, the command status and one change re-entry. -/
theorem git_change_nesting_witness :
    (run_git_loop tr_stub ["a"]
        (change_block 1 "b" ++ List.replicate 1 "exit" ++ ("status" :: "exit" :: []))).2 = [] ∧
    Effect.exec (git_cmd (str_trim "a") "status") (tr_stub (git_cmd (str_trim "a") "status")) ∈
      (run_git_loop tr_stub ["a"]
        (change_block 1 "b" ++ List.replicate 1 "exit" ++ ("status" :: "exit" :: []))).1 ∧
    run_git_loop tr_stub ["a"] ("change" :: "b" :: "status" :: "exit" :: "status" :: "exit" :: []) =
      ([.prompt ">>> ", .prompt "Repo path", .print "Run 'help' for commands\n",
        .prompt ">>> ", .exec (git_cmd (str_trim "b") "status") (tr_stub (git_cmd (str_trim "b") "status")),
        print_cmd (tr_stub (git_cmd (str_trim "b") "status")),
        .prompt ">>> ",
        .prompt ">>> ", .exec (git_cmd (str_trim "a") "status") (tr_stub (git_cmd (str_trim "a") "status")),
        print_cmd (tr_stub (git_cmd (str_trim "a") "status")),
        .prompt ">>> "], []) :=
  git_change_nesting tr_stub "a" "b" "status" [] 1 (by decide)

end WCLI
